import Mathlib

/-!
Shallow embedding of the nft-minter repository (src/main.py, src/mint_nft.py,
src/ipfs_upload.py, src/ai_image.py).

Network interactions are modelled by explicit oracle values describing the
responses the external services return; each embedded function also returns
the list of network requests it issued, so that properties of the form
"no network call is made" can be stated.  Raised Python exceptions are
modelled with `Except`; a normal return value is `.ok`.
-/

namespace NftMinter

/-- Python exception values raised by the embedded functions.  The constructors
mirror the distinct Python exception classes raised in the source:
`ValueError`, `requests.exceptions.RequestException` (including `HTTPError`),
`FileNotFoundError` and `TypeError`. -/
inductive PyExc where
  | valueError (msg : String)
  | requestException (msg : String)
  | fileNotFound (msg : String)
  | typeError (msg : String)
deriving DecidableEq

/-- The network requests the embedded code can issue, in the order the source
issues them.  `pinFilePost`/`pinJsonPost` are the Pinata uploads, the two
`confirm` calls are the availability checks against the gateway URL, and the
`mint*` calls are the requests issued by `mint_nft` (src/mint_nft.py). -/
inductive NetCall where
  | pinFilePost
  | imageConfirmHead
  | pinJsonPost
  | metadataConfirmGet
  | mintHeadImage
  | mintGetMetadata
  | mintPost
  | mintGetStatus
deriving DecidableEq

/-- An HTTP response as seen through `raise_for_status`: `ok = true` means the
request completed with a 2xx status (no exception), `ok = false` means the
request raised a `RequestException` (transport failure or non-2xx status). -/
structure HttpResp (α : Type) where
  ok : Bool
  body : α

/-- The Pinata credentials read from the environment
(src/ipfs_upload.py lines 15-16 and 52-53). -/
structure PinEnv where
  apiKey : Option String
  secretKey : Option String

/-- Body of a Pinata pinning response; `ipfsHash = ""` models a response whose
`IpfsHash` field is missing or empty (both are falsy for the
`if not ipfs_hash` check at src/ipfs_upload.py lines 36 and 75). -/
structure PinBody where
  ipfsHash : String
deriving DecidableEq

/-- The availability-check response (the `requests.head`/`requests.get`
against the gateway URL).  `raised = true` means the request itself raised a
`RequestException` (e.g. timeout); otherwise `status` is the HTTP status code.
`bodyIsJson` records whether the fetched document would parse as JSON; the
source never inspects it, which is exactly what claim C4 is about. -/
structure ConfirmResp where
  raised : Bool
  status : Nat
  bodyIsJson : Bool

/-- Embedding of `upload_image_to_ipfs` (src/ipfs_upload.py lines 14-49).
`fileExists` is the result of `os.path.exists(image_path)`; `pin` is the
Pinata `pinFileToIPFS` response; `confirm` is the `requests.head` availability
check.  Returns the raised exception or the gateway URL, together with the
network requests issued. -/
def upload_image_to_ipfs (env : PinEnv) (fileExists : Bool)
    (pin : HttpResp PinBody) (confirm : ConfirmResp) :
    Except PyExc String × List NetCall :=
  if env.apiKey.isNone || env.secretKey.isNone then
    (.error (.valueError "PINATA_API_KEY or PINATA_SECRET_API_KEY not set in .env"), [])
  else if !fileExists then
    (.error (.fileNotFound "Image file not found"), [])
  else if !pin.ok then
    (.error (.requestException "Error uploading image to IPFS"), [.pinFilePost])
  else if pin.body.ipfsHash == "" then
    (.error (.valueError "Failed to get IPFS hash for image"), [.pinFilePost])
  else if confirm.raised then
    (.error (.requestException "Error uploading image to IPFS"),
     [.pinFilePost, .imageConfirmHead])
  else if confirm.status != 200 then
    (.error (.valueError ("Image URL " ++ ("https://ipfs.io/ipfs/" ++ pin.body.ipfsHash)
        ++ " is not accessible")),
     [.pinFilePost, .imageConfirmHead])
  else
    (.ok ("https://ipfs.io/ipfs/" ++ pin.body.ipfsHash),
     [.pinFilePost, .imageConfirmHead])

/-- The metadata document built by `upload_metadata_to_ipfs`
(src/ipfs_upload.py lines 58-63). -/
structure MetadataDoc where
  name : String
  description : String
  image : String
  attributes : List String
deriving DecidableEq

/-- Embedding of `upload_metadata_to_ipfs` (src/ipfs_upload.py lines 51-88).
`pin` is the Pinata `pinJSONToIPFS` response, as a function of the uploaded
metadata document; `confirm` is the `requests.get` availability check.  Note
that the source checks only `confirm.status`; it never parses the fetched
body, so `confirm.bodyIsJson` is not read here. -/
def upload_metadata_to_ipfs (env : PinEnv) (name description image_ipfs : String)
    (attributes : List String) (pin : MetadataDoc → HttpResp PinBody)
    (confirm : ConfirmResp) :
    Except PyExc String × List NetCall :=
  if env.apiKey.isNone || env.secretKey.isNone then
    (.error (.valueError "PINATA_API_KEY or PINATA_SECRET_API_KEY not set in .env"), [])
  else
    let metadata : MetadataDoc :=
      { name := name, description := description, image := image_ipfs,
        attributes := attributes }
    let presp := pin metadata
    if !presp.ok then
      (.error (.requestException "Error uploading metadata to IPFS"), [.pinJsonPost])
    else if presp.body.ipfsHash == "" then
      (.error (.valueError "Failed to get IPFS hash for metadata"), [.pinJsonPost])
    else if confirm.raised then
      (.error (.requestException "Error uploading metadata to IPFS"),
       [.pinJsonPost, .metadataConfirmGet])
    else if confirm.status != 200 then
      (.error (.valueError ("Metadata URL " ++ ("https://ipfs.io/ipfs/" ++ presp.body.ipfsHash)
          ++ " is not accessible")),
       [.pinJsonPost, .metadataConfirmGet])
    else
      (.ok ("https://ipfs.io/ipfs/" ++ presp.body.ipfsHash),
       [.pinJsonPost, .metadataConfirmGet])

/-- Whether `l` starts with the prefix list `p`. -/
def listStartsWith : List Char → List Char → Bool
  | _, [] => true
  | [], _ :: _ => false
  | a :: as, b :: bs => a == b && listStartsWith as bs

/-- Embedding of Python's `str.startswith`, computed on the character
lists. -/
def strStartsWith (s pre : String) : Bool :=
  listStartsWith s.data pre.data

/-- The GetGems credentials read from the environment
(src/mint_nft.py lines 16-17). -/
structure MintEnv where
  authToken : Option String
  collectionAddress : Option String

/-- The `response` object inside a GetGems API reply.  `status` is the field
the source inspects; `url` is `response.get("url")`; `payload` stands for the
remaining fields, so that distinct replies are distinguishable. -/
structure GemsRespObj where
  status : String
  url : String
  payload : String
deriving DecidableEq

/-- A parsed GetGems API reply body: `{"success": ..., "response": {...}}`. -/
structure GemsBody where
  success : Bool
  response : GemsRespObj
deriving DecidableEq

/-- The dictionary returned by `mint_nft`: either
`{"success": True, "response": ...}` or `{"success": False, "error": ...}`. -/
inductive MintRet where
  | success (response : GemsRespObj)
  | failure (error : String)
deriving DecidableEq

/-- The body of a metadata document fetched during `mint_nft`'s pre-submission
check; `image = ""` models a missing or falsy `image` field
(src/mint_nft.py line 57). -/
structure MetaBody where
  image : String
deriving DecidableEq

/-- The request id generated at src/mint_nft.py line 72:
`str(int(time.time() * 1000))`, a pure function of the millisecond clock. -/
def requestId (nowMs : Nat) : String := toString nowMs

/-- The submit payload built at src/mint_nft.py lines 73-80. -/
structure MintPayload where
  requestId : String
  ownerAddress : String
  name : String
  description : String
  image : String
  attributes : List String
deriving DecidableEq

/-- Building the submit payload (src/mint_nft.py lines 71-80). -/
def mkMintPayload (nowMs : Nat) (address name description image_ipfs : String)
    (attributes : List String) : MintPayload :=
  { requestId := requestId nowMs
    ownerAddress := address
    name := name
    description := description
    image := image_ipfs
    attributes := attributes }

/-- The network oracles consumed by `mint_nft`: the image HEAD check, the
metadata GET, the mint POST (a function of the submitted payload) and the
status polls (indexed by poll attempt). -/
structure MintNet where
  headImage : Bool
  getMetadata : HttpResp MetaBody
  postMint : MintPayload → HttpResp GemsBody
  polls : Nat → HttpResp GemsBody

/-- The status-poll loop of `mint_nft` (src/mint_nft.py lines 94-103).  The
first argument of the recursion is the remaining fuel of `range(10)`, the
second the poll index.  Because the `return` on line 103 is indented inside
the loop body, every iteration returns: a non-2xx poll returns the failure
dictionary (via the outer `except`), a `ready` poll returns that poll's
response, and any other poll returns the original submit response.  The
fuel-0 case corresponds to falling through the loop to line 105, which the
source can never reach since `range(10)` always yields a first iteration. -/
def pollLoop (orig : GemsBody) (polls : Nat → HttpResp GemsBody) :
    Nat → Nat → MintRet × List NetCall
  | 0, _ => (.success orig.response, [])
  | _ + 1, i =>
    let p := polls i
    if !p.ok then (.failure "HTTP Error during minting", [.mintGetStatus])
    else if p.body.success && p.body.response.status == "ready" then
      (.success p.body.response, [.mintGetStatus])
    else (.success orig.response, [.mintGetStatus])

/-- Embedding of `mint_nft` (src/mint_nft.py lines 13-111).  `nowMs` is the
millisecond clock reading used for the request id.  The result is the raised
exception or the returned dictionary, together with the issued network
requests in order. -/
def mint_nft (env : MintEnv) (address image_ipfs metadata_ipfs name description : String)
    (attributes : List String) (nowMs : Nat) (net : MintNet) :
    Except PyExc MintRet × List NetCall :=
  if env.authToken.isNone then
    (.error (.valueError "GETGEMS_AUTH_TOKEN not set in .env"), [])
  else if env.collectionAddress.isNone then
    (.error (.valueError "COLLECTION_ADDRESS not set in .env"), [])
  else if !(strStartsWith image_ipfs "https://") then
    (.error (.valueError ("Invalid image_ipfs URL: " ++ image_ipfs)), [])
  else if !net.headImage then
    (.error (.requestException ("Failed to access image URL " ++ image_ipfs)),
     [.mintHeadImage])
  else if !(strStartsWith metadata_ipfs "https://") then
    (.error (.valueError ("Invalid metadata_ipfs URL: " ++ metadata_ipfs)),
     [.mintHeadImage])
  else if !net.getMetadata.ok then
    (.error (.requestException ("Failed to access metadata URL " ++ metadata_ipfs)),
     [.mintHeadImage, .mintGetMetadata])
  else if net.getMetadata.body.image == "" then
    (.error (.valueError "Metadata JSON missing image field"),
     [.mintHeadImage, .mintGetMetadata])
  else
    let payload := mkMintPayload nowMs address name description image_ipfs attributes
    let submit := net.postMint payload
    if !submit.ok then
      (.ok (.failure "HTTP Error during minting"),
       [.mintHeadImage, .mintGetMetadata, .mintPost])
    else
      let result := submit.body
      if result.success && result.response.status == "in_queue" then
        let pl := pollLoop result net.polls 10 0
        (.ok pl.1, [.mintHeadImage, .mintGetMetadata, .mintPost] ++ pl.2)
      else
        (.ok (.success result.response),
         [.mintHeadImage, .mintGetMetadata, .mintPost])

/-- An exception propagating out of an endpoint handler body: either a
`fastapi.HTTPException` raised explicitly, or a Python exception raised by a
called function. -/
inductive Raised where
  | httpExc (status : Nat) (detail : String)
  | pyExc (e : PyExc)
deriving DecidableEq

/-- `str(e)` for the embedded Python exceptions. -/
def pyMsg : PyExc → String
  | .valueError m => m
  | .requestException m => m
  | .fileNotFound m => m
  | .typeError m => m

/-- `str(e)` for an exception caught by an endpoint's `except Exception`
block; Starlette's `HTTPException.__str__` renders `"<status>: <detail>"`. -/
def strOfRaised : Raised → String
  | .httpExc c d => toString c ++ ": " ++ d
  | .pyExc e => pyMsg e

/-- The HTTP-level outcome a client observes from an endpoint. -/
inductive EndpointResult (α : Type) where
  | ok (value : α)
  | httpError (status : Nat) (detail : String)
deriving DecidableEq

/-- The `try ... except Exception as e: raise HTTPException(500, wrap(str(e)))`
pattern shared by every endpoint in src/main.py: a value returned by the body
is the 200 response, any exception raised in the body is converted to a
single HTTP 500 whose detail embeds the original message. -/
def runEndpoint {α : Type} (wrap : String → String) (body : Except Raised α) :
    EndpointResult α :=
  match body with
  | .ok v => .ok v
  | .error e => .httpError 500 (wrap (strOfRaised e))

/-- Applies `runEndpoint` to a handler body that also reports its network
calls. -/
def wrapEndpoint {α : Type} (wrap : String → String)
    (p : Except Raised α × List NetCall) : EndpointResult α × List NetCall :=
  (runEndpoint wrap p.1, p.2)

/-- The multipart file received by `POST /upload-image`. -/
structure UploadFileIn where
  contentType : String
  size : Nat

/-- The filename produced for an uploaded image
(src/main.py lines 70-72): `uploaded_<timestamp>.<ext>`. -/
def uploadedFilename (nowMs : Nat) (ext : String) : String :=
  "uploaded_" ++ toString nowMs ++ "." ++ ext

/-- The filename produced by `generate_image`
(src/ai_image.py lines 35-36): `output_<timestamp>.png`. -/
def generatedFilename (nowMs : Nat) : String :=
  "output_" ++ toString nowMs ++ ".png"

/-- Handler body of `POST /upload-image` (src/main.py lines 56-80): content
type must be PNG or JPEG, size at most 5MB; on success the file is saved
under a timestamp-derived name which is returned. -/
def upload_image_body (f : UploadFileIn) (nowMs : Nat) : Except Raised String :=
  if !(f.contentType == "image/png" || f.contentType == "image/jpeg") then
    .error (.httpExc 400 "Only PNG or JPEG images are allowed")
  else if f.size > 5 * 1024 * 1024 then
    .error (.httpExc 400 "Image size must be less than 5MB")
  else
    .ok (uploadedFilename nowMs (if f.contentType == "image/png" then "png" else "jpg"))

/-- The `POST /upload-image` endpoint (src/main.py lines 55-83), body plus
catch-all wrapper. -/
def upload_image_endpoint (f : UploadFileIn) (nowMs : Nat) : EndpointResult String :=
  runEndpoint id (upload_image_body f nowMs)

/-- The nine leading characters of the filename pattern accepted by
`POST /upload-to-ipfs`. -/
def uploadedStart : List Char := ['u', 'p', 'l', 'o', 'a', 'd', 'e', 'd', '_']

/-- The characters of the `.png` extension alternative. -/
def pngEnd : List Char := ['.', 'p', 'n', 'g']

/-- The characters of the `.jpg` extension alternative. -/
def jpgEnd : List Char := ['.', 'j', 'p', 'g']

/-- Embedding of `re.match(r"^uploaded_\d+\.(png|jpg)$", filename)` from
src/main.py line 94: the literal head `uploaded_`, one or more digits, then
exactly `.png` or `.jpg` (digits taken as ASCII, as produced by the
timestamp formatting in the repository). -/
def isUploadedFilename (s : String) : Bool :=
  listStartsWith s.data uploadedStart &&
    (decide (0 < ((s.data.drop 9).takeWhile Char.isDigit).length) &&
      ((s.data.drop 9).dropWhile Char.isDigit == pngEnd ||
        (s.data.drop 9).dropWhile Char.isDigit == jpgEnd))

/-- The core of the TON-address pattern `[0-9a-zA-Z_-]{48}`: exactly 48
characters drawn from ASCII letters, digits, underscore and hyphen. -/
def isTonAddrCore (l : List Char) : Bool :=
  l.length == 48 && l.all (fun c => c.isAlphanum || c == '_' || c == '-')

/-- Embedding of `re.match(r"^[0-9a-zA-Z_-]{48}$", address)` from
src/main.py line 119.  Python's `$` matches at the end of the string or just
before a single newline at the end of the string, so the pattern accepts 48
alphabet characters optionally followed by one trailing newline. -/
def isTonAddr (s : String) : Bool :=
  isTonAddrCore s.data ||
    (s.data.getLast? == some '\n' && isTonAddrCore s.data.dropLast)

/-- The description string built at src/main.py lines 106 and 133; a `None`
or empty prompt is falsy in Python and yields `"Uploaded image"`. -/
def descriptionOf : Option String → String
  | some p => if p == "" then "Uploaded image" else "Generated from: " ++ p
  | none => "Uploaded image"

/-- Python's call-binding check for a function whose parameters are the
required positional-or-keyword names `params` (none has a default), called
with `nPos` positional arguments and the keyword arguments `kwNames`: the
call is bound successfully iff the positional arguments do not overflow,
every remaining parameter is supplied by keyword, and no keyword is unknown
or duplicated with a positional slot. -/
def pyBindOk (params : List String) (nPos : Nat) (kwNames : List String) : Bool :=
  decide (nPos ≤ params.length) &&
    (params.drop nPos).all (fun p => kwNames.contains p) &&
    kwNames.all (fun k => (params.drop nPos).contains k)

/-- The parameter list of `upload_metadata_to_ipfs`
(src/ipfs_upload.py line 51): all four parameters are required. -/
def uploadMetadataParams : List String :=
  ["name", "description", "image_ipfs", "attributes"]

/-- The parameter list of `mint_nft` (src/mint_nft.py line 13): all six
parameters are required. -/
def mintNftParams : List String :=
  ["address", "image_ipfs", "metadata_ipfs", "name", "description", "attributes"]

/-- A Python call expression: CPython first binds the arguments against the
callee's signature, raising `TypeError` without entering the body when a
required parameter is left unbound; only on success does the body run. -/
def pyCall {α : Type} (params : List String) (fname : String) (nPos : Nat)
    (kwNames : List String) (run : Unit → Except PyExc α × List NetCall) :
    Except PyExc α × List NetCall :=
  if pyBindOk params nPos kwNames then run ()
  else (.error (.typeError (fname ++ " missing required arguments")), [])

/-- Request body of `POST /upload-to-ipfs` (src/main.py lines 32-34). -/
structure IpfsUploadReq where
  filename : String
  prompt : Option String

/-- Success response of `POST /upload-to-ipfs` (src/main.py line 110). -/
structure IpfsUploadResp where
  ipfs_image : String
  ipfs_metadata : String
  filename : String
deriving DecidableEq

/-- Handler body of `POST /upload-to-ipfs` (src/main.py lines 85-113):
filename must be non-empty, match the `uploaded_*` pattern and exist; then
the image is pinned and `upload_metadata_to_ipfs` is called with three
positional arguments (line 107) although its signature requires four, so the
call raises `TypeError` before the metadata upload can run (the `pyCall`
success branch is unreachable; the `[]` passed for `attributes` there is
never consumed). -/
def upload_to_ipfs_body (req : IpfsUploadReq) (fileExists : Bool) (env : PinEnv)
    (pin : HttpResp PinBody) (confirm : ConfirmResp)
    (mpin : MetadataDoc → HttpResp PinBody) (mconfirm : ConfirmResp) :
    Except Raised IpfsUploadResp × List NetCall :=
  if req.filename == "" then
    (.error (.httpExc 400 "Filename is required"), [])
  else if !isUploadedFilename req.filename then
    (.error (.httpExc 400 ("Invalid filename format: " ++ req.filename)), [])
  else if !fileExists then
    (.error (.httpExc 400 ("Image file not found: " ++ req.filename)), [])
  else
    match upload_image_to_ipfs env fileExists pin confirm with
    | (.error e, tr) => (.error (.pyExc e), tr)
    | (.ok ipfsImage, tr) =>
      match pyCall uploadMetadataParams "upload_metadata_to_ipfs" 3 []
          (fun _ => upload_metadata_to_ipfs env "Open Hack NFT"
            (descriptionOf req.prompt) ipfsImage [] mpin mconfirm) with
      | (.error e, tr2) => (.error (.pyExc e), tr ++ tr2)
      | (.ok ipfsMetadata, tr2) =>
        (.ok { ipfs_image := ipfsImage, ipfs_metadata := ipfsMetadata,
               filename := req.filename }, tr ++ tr2)

/-- The `POST /upload-to-ipfs` endpoint (src/main.py lines 85-113), body plus
catch-all wrapper (`detail = f"IPFS upload failed: {str(e)}"`). -/
def upload_to_ipfs_endpoint (req : IpfsUploadReq) (fileExists : Bool) (env : PinEnv)
    (pin : HttpResp PinBody) (confirm : ConfirmResp)
    (mpin : MetadataDoc → HttpResp PinBody) (mconfirm : ConfirmResp) :
    EndpointResult IpfsUploadResp × List NetCall :=
  wrapEndpoint (fun s => "IPFS upload failed: " ++ s)
    (upload_to_ipfs_body req fileExists env pin confirm mpin mconfirm)

/-- Request body of `POST /mint-nft` (src/main.py lines 36-39). -/
structure MintNFTReq where
  address : Option String
  filename : String
  prompt : Option String

/-- Success response of `POST /mint-nft` (src/main.py lines 144 and 147). -/
structure MintNFTResp where
  message : String
  url : String
  ipfs_image : String
  ipfs_metadata : String
deriving DecidableEq

/-- The address resolution at src/main.py lines 118-123: a truthy supplied
address must match the TON pattern, a falsy one (absent or empty string) is
replaced by the configured default recipient without validation. -/
def resolveAddress (tonRecipient : String) (req : MintNFTReq) : Except Raised String :=
  match req.address with
  | some a =>
    if a == "" then .ok tonRecipient
    else if isTonAddr a then .ok a
    else .error (.httpExc 400 "Invalid TON address format")
  | none => .ok tonRecipient

/-- Handler body of `POST /mint-nft` (src/main.py lines 116-153): address
resolution, file-existence check, image pinning, then the calls to
`upload_metadata_to_ipfs` (line 134, three positional arguments) and
`mint_nft` (line 137, three positional arguments plus `name` and
`description` keywords), each of which leaves the required `attributes`
parameter unbound and therefore raises `TypeError` at the call site; the
success branches of those `pyCall`s, including the `ready`/queued handling
of lines 140-150, are faithful to the source but unreachable. -/
def mint_nft_body (tonRecipient : String) (req : MintNFTReq) (fileExists : Bool)
    (env : PinEnv) (pin : HttpResp PinBody) (confirm : ConfirmResp)
    (mpin : MetadataDoc → HttpResp PinBody) (mconfirm : ConfirmResp)
    (menv : MintEnv) (nowMs : Nat) (mnet : MintNet) :
    Except Raised MintNFTResp × List NetCall :=
  match resolveAddress tonRecipient req with
  | .error e => (.error e, [])
  | .ok addr =>
    if !fileExists then
      (.error (.httpExc 400 "Image file not found"), [])
    else
      match upload_image_to_ipfs env fileExists pin confirm with
      | (.error e, tr) => (.error (.pyExc e), tr)
      | (.ok ipfsImage, tr) =>
        match pyCall uploadMetadataParams "upload_metadata_to_ipfs" 3 []
            (fun _ => upload_metadata_to_ipfs env "Open Hack NFT"
              (descriptionOf req.prompt) ipfsImage [] mpin mconfirm) with
        | (.error e, tr2) => (.error (.pyExc e), tr ++ tr2)
        | (.ok ipfsMetadata, tr2) =>
          match pyCall mintNftParams "mint_nft" 3 ["name", "description"]
              (fun _ => mint_nft menv addr ipfsImage ipfsMetadata "Open Hack NFT"
                (descriptionOf req.prompt) [] nowMs mnet) with
          | (.error e, tr3) => (.error (.pyExc e), tr ++ tr2 ++ tr3)
          | (.ok ret, tr3) =>
            match ret with
            | .failure _ =>
              (.error (.httpExc 500 "Minting error"), tr ++ tr2 ++ tr3)
            | .success resp =>
              if resp.status == "ready" then
                (.ok { message := "NFT successfully minted to " ++ addr,
                       url := resp.url, ipfs_image := ipfsImage,
                       ipfs_metadata := ipfsMetadata }, tr ++ tr2 ++ tr3)
              else
                (.ok { message := "NFT queued for minting to " ++ addr,
                       url := resp.url, ipfs_image := ipfsImage,
                       ipfs_metadata := ipfsMetadata }, tr ++ tr2 ++ tr3)

/-- The `POST /mint-nft` endpoint (src/main.py lines 115-153), body plus
catch-all wrapper (`detail = str(e)`). -/
def mint_nft_endpoint (tonRecipient : String) (req : MintNFTReq) (fileExists : Bool)
    (env : PinEnv) (pin : HttpResp PinBody) (confirm : ConfirmResp)
    (mpin : MetadataDoc → HttpResp PinBody) (mconfirm : ConfirmResp)
    (menv : MintEnv) (nowMs : Nat) (mnet : MintNet) :
    EndpointResult MintNFTResp × List NetCall :=
  wrapEndpoint id
    (mint_nft_body tonRecipient req fileExists env pin confirm mpin mconfirm menv nowMs mnet)

/-! ### Helper lemmas -/

theorem strData_append (a b : String) : (a ++ b).data = a.data ++ b.data := rfl

theorem listStartsWith_append (p r : List Char) : listStartsWith (p ++ r) p = true := by
  induction p with
  | nil => cases r <;> rfl
  | cons a as ih => simp [listStartsWith, ih]

theorem digitChar_isDigit (m : Nat) (h : m < 10) : (Nat.digitChar m).isDigit = true := by
  interval_cases m <;> decide

theorem toDigitsCore_isDigit :
    ∀ (fuel n : Nat) (ds : List Char), (∀ c ∈ ds, c.isDigit = true) →
      ∀ c ∈ Nat.toDigitsCore 10 fuel n ds, c.isDigit = true := by
  intro fuel
  induction fuel with
  | zero => intro n ds h c hc; exact h c hc
  | succ f ih =>
    intro n ds h c hc
    rw [Nat.toDigitsCore] at hc
    by_cases h0 : n / 10 = 0
    · rw [if_pos h0] at hc
      rcases List.mem_cons.mp hc with h1 | h1
      · subst h1; exact digitChar_isDigit _ (Nat.mod_lt _ (by norm_num))
      · exact h c h1
    · rw [if_neg h0] at hc
      refine ih _ _ ?_ c hc
      intro c2 hc2
      rcases List.mem_cons.mp hc2 with h1 | h1
      · subst h1; exact digitChar_isDigit _ (Nat.mod_lt _ (by norm_num))
      · exact h c2 h1

theorem toDigitsCore_ne_nil :
    ∀ (fuel n : Nat) (ds : List Char), ds ≠ [] → Nat.toDigitsCore 10 fuel n ds ≠ [] := by
  intro fuel
  induction fuel with
  | zero => intro n ds h; exact h
  | succ f ih =>
    intro n ds h
    rw [Nat.toDigitsCore]
    by_cases h0 : n / 10 = 0
    · rw [if_pos h0]; exact List.cons_ne_nil _ _
    · rw [if_neg h0]; exact ih _ _ (List.cons_ne_nil _ _)

theorem toDigits_isDigit (n : Nat) : ∀ c ∈ Nat.toDigits 10 n, c.isDigit = true := by
  intro c hc
  exact toDigitsCore_isDigit (n + 1) n [] (by intro c2 hc2; cases hc2) c hc

theorem toDigits_ne_nil (n : Nat) : Nat.toDigits 10 n ≠ [] := by
  rw [Nat.toDigits, Nat.toDigitsCore]
  by_cases h0 : n / 10 = 0
  · rw [if_pos h0]; exact List.cons_ne_nil _ _
  · rw [if_neg h0]; exact toDigitsCore_ne_nil _ _ _ (List.cons_ne_nil _ _)

theorem natToString_data (n : Nat) : (toString n).data = Nat.toDigits 10 n := rfl

theorem takeWhile_all_append (p : Char → Bool) (ds : List Char) (e : Char) (tl : List Char)
    (hds : ∀ c ∈ ds, p c = true) (he : p e = false) :
    (ds ++ e :: tl).takeWhile p = ds := by
  induction ds with
  | nil => simp [List.takeWhile, he]
  | cons a as ih =>
    have ha : p a = true := hds a (List.mem_cons_self a as)
    simp [List.takeWhile, ha]
    exact ih (fun c hc => hds c (List.mem_cons_of_mem a hc))

theorem dropWhile_all_append (p : Char → Bool) (ds : List Char) (e : Char) (tl : List Char)
    (hds : ∀ c ∈ ds, p c = true) (he : p e = false) :
    (ds ++ e :: tl).dropWhile p = e :: tl := by
  induction ds with
  | nil => simp [List.dropWhile, he]
  | cons a as ih =>
    have ha : p a = true := hds a (List.mem_cons_self a as)
    simp [List.dropWhile, ha]
    exact ih (fun c hc => hds c (List.mem_cons_of_mem a hc))

theorem generated_data (ts : Nat) :
    (generatedFilename ts).data
      = 'o' :: 'u' :: 't' :: 'p' :: 'u' :: 't' :: '_' :: (Nat.toDigits 10 ts ++ pngEnd) := by
  show (("output_" ++ toString ts) ++ ".png").data = _
  rw [strData_append, strData_append, natToString_data]
  simp [pngEnd, show "output_".data = ['o', 'u', 't', 'p', 'u', 't', '_'] from rfl,
    show ".png".data = ['.', 'p', 'n', 'g'] from rfl]

theorem gen_not_uploaded (ts : Nat) : isUploadedFilename (generatedFilename ts) = false := by
  rw [isUploadedFilename, generated_data]
  rw [show uploadedStart = 'u' :: ['p', 'l', 'o', 'a', 'd', 'e', 'd', '_'] from rfl]
  rw [listStartsWith]
  rw [show (('o' : Char) == 'u') = false from rfl]
  simp

theorem uploaded_data (ts : Nat) (ext : String) :
    (uploadedFilename ts ext).data
      = uploadedStart ++ (Nat.toDigits 10 ts ++ ('.' :: ext.data)) := by
  show ((("uploaded_" ++ toString ts) ++ ".") ++ ext).data = _
  rw [strData_append, strData_append, strData_append, natToString_data]
  simp [uploadedStart,
    show "uploaded_".data = ['u', 'p', 'l', 'o', 'a', 'd', 'e', 'd', '_'] from rfl,
    show ".".data = ['.'] from rfl]

theorem uploaded_png_ok (ts : Nat) : isUploadedFilename (uploadedFilename ts "png") = true := by
  rw [isUploadedFilename, uploaded_data]
  rw [listStartsWith_append uploadedStart (Nat.toDigits 10 ts ++ ('.' :: "png".data))]
  have hdrop : (uploadedStart ++ (Nat.toDigits 10 ts ++ ('.' :: "png".data))).drop 9
      = Nat.toDigits 10 ts ++ ('.' :: "png".data) := by
    rw [show (9 : Nat) = uploadedStart.length from rfl]
    exact List.drop_left _ _
  rw [hdrop]
  rw [takeWhile_all_append Char.isDigit _ '.' _ (toDigits_isDigit ts) rfl]
  rw [dropWhile_all_append Char.isDigit _ '.' _ (toDigits_isDigit ts) rfl]
  have hpos : 0 < (Nat.toDigits 10 ts).length := List.length_pos.mpr (toDigits_ne_nil ts)
  simp [hpos, pngEnd, show "png".data = ['p', 'n', 'g'] from rfl]

theorem uploaded_jpg_ok (ts : Nat) : isUploadedFilename (uploadedFilename ts "jpg") = true := by
  rw [isUploadedFilename, uploaded_data]
  rw [listStartsWith_append uploadedStart (Nat.toDigits 10 ts ++ ('.' :: "jpg".data))]
  have hdrop : (uploadedStart ++ (Nat.toDigits 10 ts ++ ('.' :: "jpg".data))).drop 9
      = Nat.toDigits 10 ts ++ ('.' :: "jpg".data) := by
    rw [show (9 : Nat) = uploadedStart.length from rfl]
    exact List.drop_left _ _
  rw [hdrop]
  rw [takeWhile_all_append Char.isDigit _ '.' _ (toDigits_isDigit ts) rfl]
  rw [dropWhile_all_append Char.isDigit _ '.' _ (toDigits_isDigit ts) rfl]
  have hpos : 0 < (Nat.toDigits 10 ts).length := List.length_pos.mpr (toDigits_ne_nil ts)
  simp [hpos, jpgEnd, show "jpg".data = ['j', 'p', 'g'] from rfl]

theorem bindMetaFalse : pyBindOk uploadMetadataParams 3 [] = false := by decide

theorem bindMintFalse : pyBindOk mintNftParams 3 ["name", "description"] = false := by decide

theorem runEndpoint_not_400 {α : Type} (wrap : String → String) (b : Except Raised α)
    (d : String) : runEndpoint wrap b ≠ .httpError 400 d := by
  cases b <;> simp [runEndpoint]

theorem runEndpoint_ok_iff {α : Type} (wrap : String → String) (b : Except Raised α)
    (v : α) : runEndpoint wrap b = .ok v ↔ b = .ok v := by
  cases b <;> simp [runEndpoint]

theorem mint_nft_body_no_ok (tonR : String) (req : MintNFTReq) (fileEx : Bool)
    (env : PinEnv) (pin : HttpResp PinBody) (confirm : ConfirmResp)
    (mpin : MetadataDoc → HttpResp PinBody) (mconfirm : ConfirmResp)
    (menv : MintEnv) (nowMs : Nat) (mnet : MintNet) (r : MintNFTResp) :
    (mint_nft_body tonR req fileEx env pin confirm mpin mconfirm menv nowMs mnet).1
      ≠ .ok r := by
  rcases hra : resolveAddress tonR req with e | addr
  · simp [mint_nft_body, hra]
  · cases fileEx with
    | false => simp [mint_nft_body, hra]
    | true =>
      rcases hui : upload_image_to_ipfs env true pin confirm with ⟨res, tr⟩
      rcases res with e | url <;>
        simp [mint_nft_body, hra, hui, pyCall, bindMetaFalse]

theorem upload_to_ipfs_body_no_ok (req : IpfsUploadReq) (fileEx : Bool) (env : PinEnv)
    (pin : HttpResp PinBody) (confirm : ConfirmResp)
    (mpin : MetadataDoc → HttpResp PinBody) (mconfirm : ConfirmResp)
    (r : IpfsUploadResp) :
    (upload_to_ipfs_body req fileEx env pin confirm mpin mconfirm).1 ≠ .ok r := by
  by_cases h1 : req.filename = ""
  · simp [upload_to_ipfs_body, h1]
  · cases fileEx with
    | false => by_cases h2 : isUploadedFilename req.filename <;>
        simp [upload_to_ipfs_body, h1, h2]
    | true =>
      rcases hui : upload_image_to_ipfs env true pin confirm with ⟨res, tr⟩
      by_cases h2 : isUploadedFilename req.filename <;>
        rcases res with e | url <;>
        simp [upload_to_ipfs_body, h1, h2, hui, pyCall, bindMetaFalse]

theorem mint_endpoint_no_ok (tonR : String) (req : MintNFTReq) (fileEx : Bool)
    (env : PinEnv) (pin : HttpResp PinBody) (confirm : ConfirmResp)
    (mpin : MetadataDoc → HttpResp PinBody) (mconfirm : ConfirmResp)
    (menv : MintEnv) (nowMs : Nat) (mnet : MintNet) (r : MintNFTResp) :
    (mint_nft_endpoint tonR req fileEx env pin confirm mpin mconfirm menv nowMs mnet).1
      ≠ .ok r := by
  intro hok
  exact mint_nft_body_no_ok tonR req fileEx env pin confirm mpin mconfirm menv nowMs mnet r
    ((runEndpoint_ok_iff _ _ _).mp hok)

theorem ipfs_endpoint_no_ok (req : IpfsUploadReq) (fileEx : Bool) (env : PinEnv)
    (pin : HttpResp PinBody) (confirm : ConfirmResp)
    (mpin : MetadataDoc → HttpResp PinBody) (mconfirm : ConfirmResp)
    (r : IpfsUploadResp) :
    (upload_to_ipfs_endpoint req fileEx env pin confirm mpin mconfirm).1 ≠ .ok r := by
  intro hok
  exact upload_to_ipfs_body_no_ok req fileEx env pin confirm mpin mconfirm r
    ((runEndpoint_ok_iff _ _ _).mp hok)

theorem generatedFilename_ne_empty (ts : Nat) : generatedFilename ts ≠ "" := by
  intro h
  have h2 := congrArg String.data h
  rw [generated_data] at h2
  simp at h2

theorem tonAddr_trailing_newline :
    isTonAddr "AAAAAAAAAAAAAAAAAAAAAAAAAAAAAAAAAAAAAAAAAAAAAAAA" = true
    ∧ isTonAddr ("AAAAAAAAAAAAAAAAAAAAAAAAAAAAAAAAAAAAAAAAAAAAAAAA" ++ "\n") = true
    ∧ isTonAddr ("AAAAAAAAAAAAAAAAAAAAAAAAAAAAAAAAAAAAAAAAAAAAAAAA" ++ "\n\n") = false
    ∧ isTonAddr "AAAAAAAAAAAAAAAAAAAAAAAAAAAAAAAAAAAAAAAAAAAAAAA" = false := by
  refine ⟨by decide, by decide, by decide, by decide⟩

/-! ### Claim theorems -/

/-- C1: the claim states that with a submit response of `in_queue` the poll
loop runs up to 10 attempts, returns `Ready` exactly on the attempt whose
status is `ready`, and after 10 non-ready polls returns the last observed
poll data.  The code does none of this: because the `return` on
src/mint_nft.py line 103 is inside the loop body, a poll sequence
`[in_queue, in_queue, ready]` issues exactly one status request and returns
the original submit response (status `in_queue`, payload `submit-data`), and
an all-non-ready poll sequence likewise returns the original submit response
after one poll rather than the last observed poll data (`poll-data`). -/
theorem c1_poll_loop_returns_submit_response :
    mint_nft ⟨some "tok", some "coll"⟩ "EQAddr" "https://img" "https://meta" "NFT" "d" []
        1700000000000
        ⟨true, ⟨true, ⟨"https://img"⟩⟩,
         fun _ => ⟨true, ⟨true, ⟨"in_queue", "", "submit-data"⟩⟩⟩,
         fun i => if i == 2 then ⟨true, ⟨true, ⟨"ready", "https://nft", "poll-data"⟩⟩⟩
           else ⟨true, ⟨true, ⟨"in_queue", "", "poll-data"⟩⟩⟩⟩
      = (.ok (.success ⟨"in_queue", "", "submit-data"⟩),
         [.mintHeadImage, .mintGetMetadata, .mintPost, .mintGetStatus])
    ∧ mint_nft ⟨some "tok", some "coll"⟩ "EQAddr" "https://img" "https://meta" "NFT" "d" []
        1700000000000
        ⟨true, ⟨true, ⟨"https://img"⟩⟩,
         fun _ => ⟨true, ⟨true, ⟨"in_queue", "", "submit-data"⟩⟩⟩,
         fun _ => ⟨true, ⟨true, ⟨"in_queue", "", "poll-data"⟩⟩⟩⟩
      = (.ok (.success ⟨"in_queue", "", "submit-data"⟩),
         [.mintHeadImage, .mintGetMetadata, .mintPost, .mintGetStatus]) :=
  ⟨rfl, rfl⟩

/-- C2: the claim states that two mint invocations at the same
millisecond-equivalent instant produce distinct request identifiers.  The
code derives the request id purely from the clock
(src/mint_nft.py line 72), so two invocations with different owner
addresses, names and images but the same clock reading produce the same
request id in their submit payloads. -/
theorem c2_same_instant_same_request_id :
    (mkMintPayload 1700000000000 "EQAddressOne" "NFT one" "first" "https://img1" []).requestId
      = (mkMintPayload 1700000000000 "EQAddressTwo" "NFT two" "second" "https://img2" []).requestId
    ∧ "EQAddressOne" ≠ "EQAddressTwo" :=
  ⟨rfl, by decide⟩

/-- C3 counterexample: the supplied address `""` does not match the 48
character pattern, yet the endpoint does not return a validation rejection
and issues two network requests (the Pinata upload and the availability
check): an empty string is falsy in Python, so src/main.py line 118 replaces
it with the default recipient instead of validating it. -/
theorem c3_empty_address_counterexample :
    isTonAddr "" = false
    ∧ (mint_nft_endpoint "0QCrecipient" ⟨some "", "uploaded_1.png", none⟩ true
        ⟨some "k", some "s"⟩ ⟨true, ⟨"QmImg"⟩⟩ ⟨false, 200, true⟩
        (fun _ => ⟨true, ⟨"QmMeta"⟩⟩) ⟨false, 200, true⟩
        ⟨some "t", some "c"⟩ 0
        ⟨true, ⟨true, ⟨"x"⟩⟩, fun _ => ⟨true, ⟨true, ⟨"ready", "u", "p"⟩⟩⟩,
          fun _ => ⟨true, ⟨true, ⟨"ready", "u", "p"⟩⟩⟩⟩).2
      = [.pinFilePost, .imageConfirmHead]
    ∧ [NetCall.pinFilePost, NetCall.imageConfirmHead] ≠ ([] : List NetCall) :=
  ⟨by decide, rfl, by decide⟩

/-- C3 (amended): for every mint request whose supplied address is non-empty
and does not match the 48-character constrained-alphabet pattern, the
endpoint rejects the request (an error response carrying the validation
message) and issues zero network calls; an empty supplied address instead
falls back to the default recipient without validation. -/
theorem c3_nonempty_invalid_address_rejected (recip a fn : String) (pr : Option String)
    (fileEx : Bool) (env : PinEnv) (pin : HttpResp PinBody) (confirm : ConfirmResp)
    (mpin : MetadataDoc → HttpResp PinBody) (mconfirm : ConfirmResp) (menv : MintEnv)
    (nowMs : Nat) (mnet : MintNet)
    (hne : a ≠ "") (hbad : isTonAddr a = false) :
    mint_nft_endpoint recip ⟨some a, fn, pr⟩ fileEx env pin confirm mpin mconfirm menv nowMs mnet
      = (.httpError 500 "400: Invalid TON address format", []) := by
  simp [mint_nft_endpoint, wrapEndpoint, runEndpoint, mint_nft_body, resolveAddress,
    strOfRaised, hne, hbad]
  rfl

/-- C3 witness: the non-empty malformed address `"bad_address"` is rejected
with no network call. -/
theorem c3_witness :
    mint_nft_endpoint "0QCrecipient" ⟨some "bad_address", "uploaded_1.png", none⟩ true
        ⟨some "k", some "s"⟩ ⟨true, ⟨"QmImg"⟩⟩ ⟨false, 200, true⟩
        (fun _ => ⟨true, ⟨"QmMeta"⟩⟩) ⟨false, 200, true⟩
        ⟨some "t", some "c"⟩ 0
        ⟨true, ⟨true, ⟨"x"⟩⟩, fun _ => ⟨true, ⟨true, ⟨"ready", "u", "p"⟩⟩⟩,
          fun _ => ⟨true, ⟨true, ⟨"ready", "u", "p"⟩⟩⟩⟩
      = (.httpError 500 "400: Invalid TON address format", []) :=
  c3_nonempty_invalid_address_rejected "0QCrecipient" "bad_address" "uploaded_1.png" none
    true ⟨some "k", some "s"⟩ ⟨true, ⟨"QmImg"⟩⟩ ⟨false, 200, true⟩
    (fun _ => ⟨true, ⟨"QmMeta"⟩⟩) ⟨false, 200, true⟩ ⟨some "t", some "c"⟩ 0
    ⟨true, ⟨true, ⟨"x"⟩⟩, fun _ => ⟨true, ⟨true, ⟨"ready", "u", "p"⟩⟩⟩,
      fun _ => ⟨true, ⟨true, ⟨"ready", "u", "p"⟩⟩⟩⟩
    (by decide) (by decide)

/-- C4 counterexample: a metadata publish whose availability fetch returns
status 200 with a body that does not parse as JSON (`bodyIsJson = false`)
still returns the gateway URL as success: src/ipfs_upload.py lines 81-84
check only the status code and never parse the fetched document, so the
claimed JSON validation does not happen. -/
theorem c4_nonjson_success_counterexample :
    upload_metadata_to_ipfs ⟨some "k", some "s"⟩ "Open Hack NFT" "Uploaded image"
        "https://ipfs.io/ipfs/QmImg" [] (fun _ => ⟨true, ⟨"QmMeta"⟩⟩) ⟨false, 200, false⟩
      = (.ok ("https://ipfs.io/ipfs/" ++ "QmMeta"), [.pinJsonPost, .metadataConfirmGet]) :=
  rfl

/-- C4 (amended): for every successful metadata publish, the availability
confirmation fetches the resulting URL and fails the publish when the fetch
returns a non-200 status, but it performs no JSON validation of the fetched
document: the outcome is independent of whether the body parses as JSON. -/
theorem c4_confirmation_without_json_validation (k s name desc img h : String)
    (attrs : List String) (bj : Bool) (r : Bool) (st : Nat) (b1 b2 : Bool)
    (hh : h ≠ "") (hr : r = false) (hst : st ≠ 200) :
    upload_metadata_to_ipfs ⟨some k, some s⟩ name desc img attrs
        (fun _ => ⟨true, ⟨h⟩⟩) ⟨r, st, b1⟩
      = upload_metadata_to_ipfs ⟨some k, some s⟩ name desc img attrs
          (fun _ => ⟨true, ⟨h⟩⟩) ⟨r, st, b2⟩
    ∧ NetCall.metadataConfirmGet
        ∈ (upload_metadata_to_ipfs ⟨some k, some s⟩ name desc img attrs
            (fun _ => ⟨true, ⟨h⟩⟩) ⟨r, st, bj⟩).2
    ∧ (upload_metadata_to_ipfs ⟨some k, some s⟩ name desc img attrs
          (fun _ => ⟨true, ⟨h⟩⟩) ⟨false, st, bj⟩).1
        = .error (.valueError ("Metadata URL " ++ ("https://ipfs.io/ipfs/" ++ h)
            ++ " is not accessible")) := by
  refine ⟨rfl, ?_, ?_⟩
  · subst hr
    simp [upload_metadata_to_ipfs, hh]
    by_cases hs : st = 200 <;> simp [hs]
  · simp [upload_metadata_to_ipfs, hh, hst]

/-- C4 witness: at a concrete non-200 confirmation the publish fails, the
fetch is on the trace, and the result ignores the JSON flag. -/
theorem c4_witness :
    upload_metadata_to_ipfs ⟨some "k", some "s"⟩ "Open Hack NFT" "d" "https://i" []
        (fun _ => ⟨true, ⟨"QmM"⟩⟩) ⟨false, 503, true⟩
      = upload_metadata_to_ipfs ⟨some "k", some "s"⟩ "Open Hack NFT" "d" "https://i" []
          (fun _ => ⟨true, ⟨"QmM"⟩⟩) ⟨false, 503, false⟩
    ∧ NetCall.metadataConfirmGet
        ∈ (upload_metadata_to_ipfs ⟨some "k", some "s"⟩ "Open Hack NFT" "d" "https://i" []
            (fun _ => ⟨true, ⟨"QmM"⟩⟩) ⟨false, 503, true⟩).2
    ∧ (upload_metadata_to_ipfs ⟨some "k", some "s"⟩ "Open Hack NFT" "d" "https://i" []
          (fun _ => ⟨true, ⟨"QmM"⟩⟩) ⟨false, 503, true⟩).1
        = .error (.valueError ("Metadata URL " ++ ("https://ipfs.io/ipfs/" ++ "QmM")
            ++ " is not accessible")) :=
  c4_confirmation_without_json_validation "k" "s" "Open Hack NFT" "d" "https://i" "QmM"
    [] true false 503 true false (by decide) rfl (by decide)

/-- C5: with credentials present and the file in place, a 2xx pin response
whose body lacks the `IpfsHash` field makes `upload_image_to_ipfs` raise the
provider-contract `ValueError`, while a non-2xx (e.g. 500) pin response
raises the transport `RequestException`; the two are distinct error
variants. -/
theorem c5_provider_contract_vs_transport (k s : String) (confirm : ConfirmResp)
    (body : PinBody) :
    (upload_image_to_ipfs ⟨some k, some s⟩ true ⟨true, ⟨""⟩⟩ confirm).1
        = .error (.valueError "Failed to get IPFS hash for image")
    ∧ (upload_image_to_ipfs ⟨some k, some s⟩ true ⟨false, body⟩ confirm).1
        = .error (.requestException "Error uploading image to IPFS")
    ∧ ∀ m m2 : String, PyExc.valueError m ≠ PyExc.requestException m2 := by
  refine ⟨rfl, rfl, ?_⟩
  intro m m2 h
  cases h

/-- C5 witness: concrete instantiation of the error-taxonomy theorem. -/
theorem c5_witness :
    (upload_image_to_ipfs ⟨some "k", some "s"⟩ true ⟨true, ⟨""⟩⟩ ⟨false, 200, true⟩).1
        = .error (.valueError "Failed to get IPFS hash for image")
    ∧ (upload_image_to_ipfs ⟨some "k", some "s"⟩ true ⟨false, ⟨"b"⟩⟩ ⟨false, 200, true⟩).1
        = .error (.requestException "Error uploading image to IPFS")
    ∧ ∀ m m2 : String, PyExc.valueError m ≠ PyExc.requestException m2 :=
  c5_provider_contract_vs_transport "k" "s" ⟨false, 200, true⟩ ⟨"b"⟩

/-- C6: whenever an upload succeeds and yields a content address, the
availability check against the gateway URL is on the network trace for any
confirmation outcome, and a confirmation returning a non-200 status makes
the publish fail with a `ValueError` instead of returning the URL; this
holds for both the binary and the metadata publish. -/
theorem c6_confirmation_always_attempted (k s h name desc img : String)
    (attrs : List String) (c1 c2 : ConfirmResp) (st : Nat)
    (hh : h ≠ "") (hst : st ≠ 200) :
    NetCall.imageConfirmHead ∈ (upload_image_to_ipfs ⟨some k, some s⟩ true ⟨true, ⟨h⟩⟩ c1).2
    ∧ (upload_image_to_ipfs ⟨some k, some s⟩ true ⟨true, ⟨h⟩⟩ ⟨false, st, true⟩).1
        = .error (.valueError ("Image URL " ++ ("https://ipfs.io/ipfs/" ++ h)
            ++ " is not accessible"))
    ∧ NetCall.metadataConfirmGet
        ∈ (upload_metadata_to_ipfs ⟨some k, some s⟩ name desc img attrs
            (fun _ => ⟨true, ⟨h⟩⟩) c2).2
    ∧ (upload_metadata_to_ipfs ⟨some k, some s⟩ name desc img attrs
          (fun _ => ⟨true, ⟨h⟩⟩) ⟨false, st, true⟩).1
        = .error (.valueError ("Metadata URL " ++ ("https://ipfs.io/ipfs/" ++ h)
            ++ " is not accessible")) := by
  refine ⟨?_, ?_, ?_, ?_⟩
  · rcases c1 with ⟨r1, st1, b1⟩
    simp [upload_image_to_ipfs, hh]
    cases r1
    · by_cases hs : st1 = 200 <;> simp [hs]
    · simp
  · simp [upload_image_to_ipfs, hh, hst]
  · rcases c2 with ⟨r2, st2, b2⟩
    simp [upload_metadata_to_ipfs, hh]
    cases r2
    · by_cases hs : st2 = 200 <;> simp [hs]
    · simp
  · simp [upload_metadata_to_ipfs, hh, hst]

/-- C6 witness: concrete instantiation with hash `"Qm"` and a 503
confirmation. -/
theorem c6_witness :
    NetCall.imageConfirmHead
      ∈ (upload_image_to_ipfs ⟨some "k", some "s"⟩ true ⟨true, ⟨"Qm"⟩⟩ ⟨false, 200, true⟩).2
    ∧ (upload_image_to_ipfs ⟨some "k", some "s"⟩ true ⟨true, ⟨"Qm"⟩⟩ ⟨false, 503, true⟩).1
        = .error (.valueError ("Image URL " ++ ("https://ipfs.io/ipfs/" ++ "Qm")
            ++ " is not accessible"))
    ∧ NetCall.metadataConfirmGet
        ∈ (upload_metadata_to_ipfs ⟨some "k", some "s"⟩ "n" "d" "https://i" []
            (fun _ => ⟨true, ⟨"Qm"⟩⟩) ⟨false, 200, true⟩).2
    ∧ (upload_metadata_to_ipfs ⟨some "k", some "s"⟩ "n" "d" "https://i" []
          (fun _ => ⟨true, ⟨"Qm"⟩⟩) ⟨false, 503, true⟩).1
        = .error (.valueError ("Metadata URL " ++ ("https://ipfs.io/ipfs/" ++ "Qm")
            ++ " is not accessible")) :=
  c6_confirmation_always_attempted "k" "s" "Qm" "n" "d" "https://i" []
    ⟨false, 200, true⟩ ⟨false, 200, true⟩ 503 (by decide) (by decide)

/-- C7 counterexample: with a valid `https` image URL and a non-`https`
metadata URL, `mint_nft` does raise the validation `ValueError`, but only
after issuing the HEAD request for the image URL (src/mint_nft.py line 42
precedes the metadata-URL check on line 49), so the rejection is not made
before any network call as the claim states. -/
theorem c7_metadata_url_checked_after_network_call :
    mint_nft ⟨some "t", some "c"⟩ "addr" "https://img" "http://meta" "n" "d" [] 0
        ⟨true, ⟨true, ⟨"i"⟩⟩, fun _ => ⟨true, ⟨true, ⟨"ready", "u", "p"⟩⟩⟩,
          fun _ => ⟨true, ⟨true, ⟨"ready", "u", "p"⟩⟩⟩⟩
      = (.error (.valueError ("Invalid metadata_ipfs URL: " ++ "http://meta")),
         [.mintHeadImage])
    ∧ [NetCall.mintHeadImage] ≠ ([] : List NetCall) :=
  ⟨rfl, by decide⟩

/-- C7 (amended): a non-`https` imageURL is rejected with a validation error
before any network call; a non-`https` metadataURL (with a valid imageURL)
is rejected with a validation error before the metadata fetch and before the
mint submission, but after the image-existence HEAD request has been
issued. -/
theorem c7_url_scheme_validation (t c addr name desc img1 meta1 img2 meta2 : String)
    (attrs : List String) (nowMs : Nat) (net1 : MintNet) (gm : HttpResp MetaBody)
    (pm : MintPayload → HttpResp GemsBody) (polls : Nat → HttpResp GemsBody)
    (h1 : strStartsWith img1 "https://" = false)
    (h2 : strStartsWith img2 "https://" = true)
    (h3 : strStartsWith meta2 "https://" = false) :
    mint_nft ⟨some t, some c⟩ addr img1 meta1 name desc attrs nowMs net1
        = (.error (.valueError ("Invalid image_ipfs URL: " ++ img1)), [])
    ∧ mint_nft ⟨some t, some c⟩ addr img2 meta2 name desc attrs nowMs ⟨true, gm, pm, polls⟩
        = (.error (.valueError ("Invalid metadata_ipfs URL: " ++ meta2)),
           [.mintHeadImage]) := by
  constructor
  · simp [mint_nft, h1]
  · simp [mint_nft, h2, h3]

/-- C7 witness: concrete instantiation with `http://img` and `http://meta`. -/
theorem c7_witness :
    mint_nft ⟨some "t", some "c"⟩ "addr" "http://img" "https://meta" "n" "d" [] 0
        ⟨true, ⟨true, ⟨"i"⟩⟩, fun _ => ⟨true, ⟨true, ⟨"ready", "u", "p"⟩⟩⟩,
          fun _ => ⟨true, ⟨true, ⟨"ready", "u", "p"⟩⟩⟩⟩
      = (.error (.valueError ("Invalid image_ipfs URL: " ++ "http://img")), [])
    ∧ mint_nft ⟨some "t", some "c"⟩ "addr" "https://img" "http://meta" "n" "d" [] 0
        ⟨true, ⟨true, ⟨"i"⟩⟩, fun _ => ⟨true, ⟨true, ⟨"ready", "u", "p"⟩⟩⟩,
          fun _ => ⟨true, ⟨true, ⟨"ready", "u", "p"⟩⟩⟩⟩
      = (.error (.valueError ("Invalid metadata_ipfs URL: " ++ "http://meta")),
         [.mintHeadImage]) :=
  c7_url_scheme_validation "t" "c" "addr" "n" "d" "http://img" "https://meta"
    "https://img" "http://meta" [] 0
    ⟨true, ⟨true, ⟨"i"⟩⟩, fun _ => ⟨true, ⟨true, ⟨"ready", "u", "p"⟩⟩⟩,
      fun _ => ⟨true, ⟨true, ⟨"ready", "u", "p"⟩⟩⟩⟩
    ⟨true, ⟨"i"⟩⟩ (fun _ => ⟨true, ⟨true, ⟨"ready", "u", "p"⟩⟩⟩)
    (fun _ => ⟨true, ⟨true, ⟨"ready", "u", "p"⟩⟩⟩)
    (by decide) (by decide) (by decide)

/-- C8 counterexample: the filename `output_1712345678901.png` matches the
generated naming pattern of src/ai_image.py line 36, yet the endpoint's
validation rejects it: the regex at src/main.py line 94 accepts only the
`uploaded_` pattern.  Concretely, the endpoint answers with the
invalid-filename-format rejection. -/
theorem c8_generated_filename_rejected :
    isUploadedFilename (generatedFilename 1712345678901) = false
    ∧ isUploadedFilename (uploadedFilename 1712345678901 "png") = true
    ∧ (upload_to_ipfs_endpoint ⟨generatedFilename 1712345678901, none⟩ true
        ⟨some "k", some "s"⟩ ⟨true, ⟨"QmImg"⟩⟩ ⟨false, 200, true⟩
        (fun _ => ⟨true, ⟨"QmMeta"⟩⟩) ⟨false, 200, true⟩).1
      = .httpError 500 ("IPFS upload failed: " ++ strOfRaised
          (.httpExc 400 ("Invalid filename format: " ++ generatedFilename 1712345678901))) :=
  ⟨by decide, by decide, rfl⟩

/-- C8 (amended): the endpoint's filename validation accepts every filename
of the uploaded naming pattern (`uploaded_<timestamp>.png` and
`uploaded_<timestamp>.jpg`), but rejects every filename of the generated
naming pattern (`output_<timestamp>.png`); a request carrying a generated
filename is answered with the invalid-filename-format rejection regardless
of the other inputs. -/
theorem c8_only_uploaded_pattern_accepted :
    (∀ ts : Nat, isUploadedFilename (uploadedFilename ts "png") = true)
    ∧ (∀ ts : Nat, isUploadedFilename (uploadedFilename ts "jpg") = true)
    ∧ (∀ ts : Nat, isUploadedFilename (generatedFilename ts) = false)
    ∧ (∀ (ts : Nat) (pr : Option String) (fileEx : Bool) (env : PinEnv)
        (pin : HttpResp PinBody) (confirm : ConfirmResp)
        (mpin : MetadataDoc → HttpResp PinBody) (mconfirm : ConfirmResp),
        (upload_to_ipfs_endpoint ⟨generatedFilename ts, pr⟩ fileEx env pin confirm mpin mconfirm).1
          = .httpError 500 ("IPFS upload failed: " ++ strOfRaised
              (.httpExc 400 ("Invalid filename format: " ++ generatedFilename ts)))) := by
  refine ⟨uploaded_png_ok, uploaded_jpg_ok, gen_not_uploaded, ?_⟩
  intro ts pr fileEx env pin confirm mpin mconfirm
  simp [upload_to_ipfs_endpoint, wrapEndpoint, runEndpoint, upload_to_ipfs_body,
    generatedFilename_ne_empty ts, gen_not_uploaded ts]

/-- C8 witness: concrete instantiation of the filename-validation theorem. -/
theorem c8_witness :
    isUploadedFilename (uploadedFilename 1712000000000 "png") = true
    ∧ isUploadedFilename (generatedFilename 1712000000000) = false :=
  ⟨c8_only_uploaded_pattern_accepted.1 1712000000000,
   c8_only_uploaded_pattern_accepted.2.2.1 1712000000000⟩

/-- C9: once validation passes, the file exists and the image upload
succeeds, both `POST /upload-to-ipfs` and `POST /mint-nft` fail with the
`TypeError` raised by calling `upload_metadata_to_ipfs` without its required
`attributes` argument, surfaced as the catch-all HTTP 500; the network trace
stops at the image upload (no metadata pin, no registry call), and neither
endpoint can return its documented success response for any input. -/
theorem c9_missing_attributes_type_error (recip fn fn2 k s h : String)
    (pr pr2 : Option String) (bj : Bool) (mpin : MetadataDoc → HttpResp PinBody)
    (mconfirm : ConfirmResp) (menv : MintEnv) (nowMs : Nat) (mnet : MintNet)
    (hh : h ≠ "") (hfn2 : isUploadedFilename fn2 = true) (hfne : fn2 ≠ "") :
    mint_nft_endpoint recip ⟨none, fn, pr⟩ true ⟨some k, some s⟩ ⟨true, ⟨h⟩⟩
        ⟨false, 200, bj⟩ mpin mconfirm menv nowMs mnet
      = (.httpError 500 "upload_metadata_to_ipfs missing required arguments",
         [.pinFilePost, .imageConfirmHead])
    ∧ upload_to_ipfs_endpoint ⟨fn2, pr2⟩ true ⟨some k, some s⟩ ⟨true, ⟨h⟩⟩
        ⟨false, 200, bj⟩ mpin mconfirm
      = (.httpError 500 "IPFS upload failed: upload_metadata_to_ipfs missing required arguments",
         [.pinFilePost, .imageConfirmHead])
    ∧ (∀ (recip3 : String) (req3 : MintNFTReq) (fe3 : Bool) (env3 : PinEnv)
        (pin3 : HttpResp PinBody) (cf3 : ConfirmResp) (mp3 : MetadataDoc → HttpResp PinBody)
        (mc3 : ConfirmResp) (me3 : MintEnv) (t3 : Nat) (mn3 : MintNet) (r : MintNFTResp),
        (mint_nft_endpoint recip3 req3 fe3 env3 pin3 cf3 mp3 mc3 me3 t3 mn3).1 ≠ .ok r)
    ∧ (∀ (req4 : IpfsUploadReq) (fe4 : Bool) (env4 : PinEnv) (pin4 : HttpResp PinBody)
        (cf4 : ConfirmResp) (mp4 : MetadataDoc → HttpResp PinBody) (mc4 : ConfirmResp)
        (r : IpfsUploadResp),
        (upload_to_ipfs_endpoint req4 fe4 env4 pin4 cf4 mp4 mc4).1 ≠ .ok r) := by
  refine ⟨?_, ?_, ?_, ?_⟩
  · simp [mint_nft_endpoint, wrapEndpoint, runEndpoint, mint_nft_body, resolveAddress,
      upload_image_to_ipfs, pyCall, bindMetaFalse, strOfRaised, pyMsg, hh]
  · simp [upload_to_ipfs_endpoint, wrapEndpoint, runEndpoint, upload_to_ipfs_body,
      upload_image_to_ipfs, pyCall, bindMetaFalse, strOfRaised, pyMsg, hh, hfn2, hfne]
  · intro recip3 req3 fe3 env3 pin3 cf3 mp3 mc3 me3 t3 mn3 r
    exact mint_endpoint_no_ok recip3 req3 fe3 env3 pin3 cf3 mp3 mc3 me3 t3 mn3 r
  · intro req4 fe4 env4 pin4 cf4 mp4 mc4 r
    exact ipfs_endpoint_no_ok req4 fe4 env4 pin4 cf4 mp4 mc4 r

/-- C9 witness: concrete pipelines reaching the arity `TypeError`. -/
theorem c9_witness :
    mint_nft_endpoint "0QCrecipient" ⟨none, "uploaded_1.png", none⟩ true
        ⟨some "k", some "s"⟩ ⟨true, ⟨"QmImg"⟩⟩ ⟨false, 200, true⟩
        (fun _ => ⟨true, ⟨"QmMeta"⟩⟩) ⟨false, 200, true⟩
        ⟨some "t", some "c"⟩ 0
        ⟨true, ⟨true, ⟨"x"⟩⟩, fun _ => ⟨true, ⟨true, ⟨"ready", "u", "p"⟩⟩⟩,
          fun _ => ⟨true, ⟨true, ⟨"ready", "u", "p"⟩⟩⟩⟩
      = (.httpError 500 "upload_metadata_to_ipfs missing required arguments",
         [.pinFilePost, .imageConfirmHead]) :=
  (c9_missing_attributes_type_error "0QCrecipient" "uploaded_1.png" "uploaded_1.png"
    "k" "s" "QmImg" none none true (fun _ => ⟨true, ⟨"QmMeta"⟩⟩) ⟨false, 200, true⟩
    ⟨some "t", some "c"⟩ 0
    ⟨true, ⟨true, ⟨"x"⟩⟩, fun _ => ⟨true, ⟨true, ⟨"ready", "u", "p"⟩⟩⟩,
      fun _ => ⟨true, ⟨true, ⟨"ready", "u", "p"⟩⟩⟩⟩
    (by decide) (by decide) (by decide)).1

/-- C10: every in-handler validation failure (invalid upload content type,
oversized upload, invalid TON address, missing file) is intercepted by the
catch-all handler and surfaces as an HTTP 500 whose detail embeds the
original `400: <message>` text, and no input to any of the three endpoints
can ever observe a 400 status. -/
theorem c10_validation_errors_surface_as_500 :
    (∀ (ct : String) (sz nowMs : Nat), ct ≠ "image/png" → ct ≠ "image/jpeg" →
      upload_image_endpoint ⟨ct, sz⟩ nowMs
        = .httpError 500 "400: Only PNG or JPEG images are allowed")
    ∧ (∀ (sz nowMs : Nat), sz > 5 * 1024 * 1024 →
      upload_image_endpoint ⟨"image/png", sz⟩ nowMs
        = .httpError 500 "400: Image size must be less than 5MB")
    ∧ (∀ (recip a fn : String) (pr : Option String) (fileEx : Bool) (env : PinEnv)
        (pin : HttpResp PinBody) (confirm : ConfirmResp)
        (mpin : MetadataDoc → HttpResp PinBody) (mconfirm : ConfirmResp)
        (menv : MintEnv) (nowMs : Nat) (mnet : MintNet),
        a ≠ "" → isTonAddr a = false →
        (mint_nft_endpoint recip ⟨some a, fn, pr⟩ fileEx env pin confirm mpin mconfirm
            menv nowMs mnet).1
          = .httpError 500 "400: Invalid TON address format")
    ∧ (∀ (fn : String) (pr : Option String) (env : PinEnv) (pin : HttpResp PinBody)
        (confirm : ConfirmResp) (mpin : MetadataDoc → HttpResp PinBody)
        (mconfirm : ConfirmResp),
        fn ≠ "" → isUploadedFilename fn = true →
        (upload_to_ipfs_endpoint ⟨fn, pr⟩ false env pin confirm mpin mconfirm).1
          = .httpError 500 ("IPFS upload failed: "
              ++ strOfRaised (.httpExc 400 ("Image file not found: " ++ fn))))
    ∧ (∀ (f : UploadFileIn) (nowMs : Nat) (d : String),
        upload_image_endpoint f nowMs ≠ .httpError 400 d)
    ∧ (∀ (recip : String) (req : MintNFTReq) (fileEx : Bool) (env : PinEnv)
        (pin : HttpResp PinBody) (confirm : ConfirmResp)
        (mpin : MetadataDoc → HttpResp PinBody) (mconfirm : ConfirmResp)
        (menv : MintEnv) (nowMs : Nat) (mnet : MintNet) (d : String),
        (mint_nft_endpoint recip req fileEx env pin confirm mpin mconfirm menv nowMs mnet).1
          ≠ .httpError 400 d)
    ∧ (∀ (req : IpfsUploadReq) (fileEx : Bool) (env : PinEnv) (pin : HttpResp PinBody)
        (confirm : ConfirmResp) (mpin : MetadataDoc → HttpResp PinBody)
        (mconfirm : ConfirmResp) (d : String),
        (upload_to_ipfs_endpoint req fileEx env pin confirm mpin mconfirm).1
          ≠ .httpError 400 d) := by
  refine ⟨?_, ?_, ?_, ?_, ?_, ?_, ?_⟩
  · intro ct sz nowMs h1 h2
    simp [upload_image_endpoint, runEndpoint, upload_image_body, strOfRaised, h1, h2]
    rfl
  · intro sz nowMs hsz
    simp [upload_image_endpoint, runEndpoint, upload_image_body, strOfRaised, hsz]
    rfl
  · intro recip a fn pr fileEx env pin confirm mpin mconfirm menv nowMs mnet hne hbad
    simp [mint_nft_endpoint, wrapEndpoint, runEndpoint, mint_nft_body, resolveAddress,
      strOfRaised, hne, hbad]
    rfl
  · intro fn pr env pin confirm mpin mconfirm hne hfn
    simp [upload_to_ipfs_endpoint, wrapEndpoint, runEndpoint, upload_to_ipfs_body,
      strOfRaised, hne, hfn]
  · intro f nowMs d
    exact runEndpoint_not_400 id _ d
  · intro recip req fileEx env pin confirm mpin mconfirm menv nowMs mnet d
    exact runEndpoint_not_400 id _ d
  · intro req fileEx env pin confirm mpin mconfirm d
    exact runEndpoint_not_400 _ _ d

/-- C10 witness: a rejected content type observes status 500, not 400. -/
theorem c10_witness :
    upload_image_endpoint ⟨"text/plain", 7⟩ 3
      = .httpError 500 "400: Only PNG or JPEG images are allowed" :=
  c10_validation_errors_surface_as_500.1 "text/plain" 7 3 (by decide) (by decide)

end NftMinter
